import Mathlib

/-!
Verification development for the virtual try-on pipeline
(`backend/app`): a shallow embedding in Lean 4 of the job model,
the in-memory job store, the pipeline orchestrator (`process_job`),
the anchor-based alignment transform, the quality scorer, the
pixel-level compositing rule and the pose detector, together with
theorems settling the specification claims about them.

Conventions of the embedding:
* Python `datetime.utcnow()` is modelled by an explicit natural-number
  timestamp supplied to each state-changing call.
* Exceptions are modelled by `Except` with an explicit exception type
  mirroring the repository's exception classes and their error codes.
* External collaborators (image decoding, MediaPipe, OpenCV contour
  extraction, the HTTP client) are modelled as oracles: the embedded
  function receives the collaborator's outcome for the run as an
  argument and the repository's own control flow around it is embedded
  faithfully.
* Real-valued arithmetic (`math.sqrt`, `atan2`) is modelled over `ℝ`;
  exact pixel arithmetic (masks, blending) is modelled over `ℕ`/`ℚ`.
-/

namespace VTO

/-! ## Basic data shapes (models/job.py, utils/image_utils.py) -/

/-- Status of a job, from `JobStatus` in `models/job.py`. -/
inductive JobStatus where
  | QUEUED
  | PROCESSING
  | DONE
  | FAILED
deriving DecidableEq, Repr

/-- Error codes for job failures, from `ErrorCode` in `models/job.py`. -/
inductive ErrorCode where
  | INVALID_IMAGE_FORMAT
  | IMAGE_TOO_LARGE
  | SEGMENTATION_FAILED
  | POSE_FAILED
  | WARP_FAILED
  | NANO_API_ERROR
  | TIMEOUT
  | STORAGE_ERROR
  | QUALITY_CHECK_FAILED
  | UNKNOWN_ERROR
deriving DecidableEq, Repr

/-- Keypoint / anchor maps: Python dicts from landmark name to a point,
with first-match lookup. -/
abbrev KPMap (α : Type) : Type := List (String × α)

/-- Lookup in a keypoint/anchor map, modelling Python `dict.get`. -/
def kpGet {α : Type} (m : KPMap α) (k : String) : Option α :=
  List.lookup k m

/-- Integer pixel coordinates, as produced by the pose detector and
anchor detector. -/
abbrev IPoint : Type := ℤ × ℤ

/-- Real-valued points, used by the alignment / quality arithmetic. -/
abbrev Point : Type := ℝ × ℝ

/-- Job record, from the `Job` pydantic model in `models/job.py`.
Timestamps are natural numbers standing for `datetime.utcnow()` values. -/
structure Job where
  job_id : String
  status : JobStatus := JobStatus.QUEUED
  user_image_path : Option String := none
  user_image_url : Option String := none
  product_id : Option String := none
  product_image_path : Option String := none
  product_image_url : Option String := none
  garment_type : Option String := none
  mode : String := "final"
  max_retries : ℕ := 2
  preserve_face : Bool := true
  preserve_background : Bool := true
  realism_level : ℕ := 3
  result_image_url : Option String := none
  quality_score : Option ℝ := none
  debug_artifacts : List (String × String) := []
  error_code : Option ErrorCode := none
  error_message : Option String := none
  retry_count : ℕ := 0
  created_at : ℕ := 0
  updated_at : ℕ := 0
  started_at : Option ℕ := none
  completed_at : Option ℕ := none

namespace Job

/-- Model of `Job.mark_processing`: sets status to PROCESSING and
unconditionally stamps `started_at` and `updated_at` with the current
time `t`. -/
def mark_processing (t : ℕ) (j : Job) : Job :=
  { j with status := JobStatus.PROCESSING, started_at := some t, updated_at := t }

/-- Model of `Job.mark_done`: sets status to DONE, records the result
url and quality score, and stamps `completed_at` and `updated_at`. -/
def mark_done (t : ℕ) (result_url : String) (quality_score : ℝ) (j : Job) : Job :=
  { j with status := JobStatus.DONE, result_image_url := some result_url,
           quality_score := some quality_score,
           completed_at := some t, updated_at := t }

/-- Model of `Job.mark_failed`: sets status to FAILED, records the
error code and message, and stamps `completed_at` and `updated_at`. -/
def mark_failed (t : ℕ) (code : ErrorCode) (msg : String) (j : Job) : Job :=
  { j with status := JobStatus.FAILED, error_code := some code,
           error_message := some msg,
           completed_at := some t, updated_at := t }

/-- Model of `Job.can_retry`: `retry_count < max_retries`. -/
def can_retry (j : Job) : Bool :=
  decide (j.retry_count < j.max_retries)

/-- Model of `Job.increment_retry`: bumps the retry counter and stamps
`updated_at`. -/
def increment_retry (t : ℕ) (j : Job) : Job :=
  { j with retry_count := j.retry_count + 1, updated_at := t }

end Job

/-! ## Job store (workers/job_queue.py)

The `JobQueue` class holds a dict of jobs and an asyncio queue of job
ids; here the dict is an association list (first match wins, insertion
replaces the binding for the key) and the queue is a FIFO list. -/

/-- Replace the binding for `k` in an association list, or append it if
absent — the semantics of Python dict assignment `d[k] = v`. -/
def assocSet {α : Type} (k : String) (v : α) : List (String × α) → List (String × α)
  | [] => [(k, v)]
  | (k', v') :: rest =>
      if k' = k then (k, v) :: rest else (k', v') :: assocSet k v rest

/-- State of the in-memory `JobQueue`: the job dict and the FIFO queue of
job ids. -/
structure JQState where
  jobs : List (String × Job) := []
  queue : List String := []

namespace JQState

/-- Model of `JobQueue.submit_job`: stores the job under its id and
enqueues the id. -/
def submit_job (j : Job) (s : JQState) : JQState :=
  { s with jobs := assocSet j.job_id j s.jobs, queue := s.queue ++ [j.job_id] }

/-- Model of `JobQueue.get_job`: dict lookup, `none` when absent. -/
def get_job (job_id : String) (s : JQState) : Option Job :=
  List.lookup job_id s.jobs

/-- Model of `JobQueue.update_job`: refreshes `updated_at` with the
current time `t` and assigns `jobs[job.job_id] = job`.  Note the dict
assignment inserts the job when the id is not present; the operation
never fails. -/
def update_job (t : ℕ) (j : Job) (s : JQState) : JQState :=
  { s with jobs := assocSet j.job_id { j with updated_at := t } s.jobs }

/-- Model of `JobQueue.requeue_job`: puts the id back at the tail of the
queue without touching the stored record. -/
def requeue_job (job_id : String) (s : JQState) : JQState :=
  { s with queue := s.queue ++ [job_id] }

end JQState

/-- Modelled from the spec: the Job Store `update(job)` operation as
§4.1 of the spec describes it — "replaces the stored record for
`job.id`, refreshing `updated_at`; fails if the id does not exist".
Used only to compare the specified behaviour with the behaviour of
`JQState.update_job` embedded from the code. -/
def update_job_spec (t : ℕ) (j : Job) (s : JQState) : Option JQState :=
  match List.lookup j.job_id s.jobs with
  | none => none
  | some _ => some { s with jobs := assocSet j.job_id { j with updated_at := t } s.jobs }

/-! ## Geometry primitives (utils/image_utils.py) -/

/-- Model of `image_utils.distance`: Euclidean distance between two
points, `sqrt((x2-x1)^2 + (y2-y1)^2)`. -/
noncomputable def distance (p1 p2 : Point) : ℝ :=
  Real.sqrt ((p2.1 - p1.1) ^ 2 + (p2.2 - p1.2) ^ 2)

/-- Two-argument arctangent `atan2 y x`, the function behind
numpy's `arctan2`, defined piecewise from `Real.arctan`. -/
noncomputable def atan2 (y x : ℝ) : ℝ :=
  if 0 < x then Real.arctan (y / x)
  else if x < 0 ∧ 0 ≤ y then Real.arctan (y / x) + Real.pi
  else if x < 0 ∧ y < 0 then Real.arctan (y / x) - Real.pi
  else if x = 0 ∧ 0 < y then Real.pi / 2
  else if x = 0 ∧ y < 0 then -(Real.pi / 2)
  else 0

/-- Radians-to-degrees conversion (`np.degrees`). -/
noncomputable def degrees (x : ℝ) : ℝ :=
  x * 180 / Real.pi

/-- Model of `image_utils.calculate_angle`: angle of the segment from
`p1` to `p2` in degrees, `degrees(arctan2(dy, dx))`. -/
noncomputable def calculate_angle (p1 p2 : Point) : ℝ :=
  degrees (atan2 (p2.2 - p1.2) (p2.1 - p1.1))

/-! ## Alignment transform (services/alignment.py) -/

/-- Transform parameter dict returned by `calculate_transform_params`. -/
structure TransformParams where
  scale : ℝ
  angle : ℝ
  tx : ℝ
  ty : ℝ
  center : Point

/-- Model of `alignment.calculate_transform_params`.  The Python code
indexes `garment_anchors['left_shoulder']` etc. directly, raising
`KeyError` on a missing key (wrapped into `AlignmentError` by the
caller `align_and_composite`); the missing-key case is modelled as
`none`.  `scale` is `person_width / garment_width` guarded by
`garment_width > 0` (else `1.0`); the translation aligns the garment's
`neckline` anchor (falling back to its `left_shoulder`) with the
person's `neck` keypoint (falling back to their `left_shoulder`). -/
noncomputable def calculate_transform_params
    (garment_anchors person_keypoints : KPMap Point) : Option TransformParams :=
  match kpGet garment_anchors "left_shoulder", kpGet garment_anchors "right_shoulder",
        kpGet person_keypoints "left_shoulder", kpGet person_keypoints "right_shoulder" with
  | some gls, some grs, some pls, some prs =>
      let garment_shoulder_width := distance gls grs
      let person_shoulder_width := distance pls prs
      let scale := if garment_shoulder_width > 0
                   then person_shoulder_width / garment_shoulder_width else 1
      let garment_angle := calculate_angle gls grs
      let person_angle := calculate_angle pls prs
      let rotation_angle := person_angle - garment_angle
      let garment_neck := (kpGet garment_anchors "neckline").getD gls
      let person_neck := (kpGet person_keypoints "neck").getD pls
      some { scale := scale, angle := rotation_angle,
             tx := person_neck.1 - garment_neck.1,
             ty := person_neck.2 - garment_neck.2,
             center := garment_neck }
  | _, _, _, _ => none

/-! ## Masks (single-channel uint8 arrays) -/

/-- Single-channel mask: rows of pixel values in `0..255`. -/
abbrev Mask : Type := List (List ℕ)

/-- Model of `cv2.countNonZero`. -/
def countNonZero (m : Mask) : ℕ :=
  (m.map (fun row => (row.filter (fun p => p ≠ 0)).length)).sum

/-- Model of `cv2.bitwise_and` on two masks: per-pixel bitwise and. -/
def maskAnd (a b : Mask) : Mask :=
  List.zipWith (fun ra rb => List.zipWith Nat.land ra rb) a b

/-! ## Quality scorer (services/quality_control.py, config.py) -/

/-- Settings relevant to the core pipeline, with the defaults from
`config.py` (each field is overridable by environment in the code). -/
structure Settings where
  nano_banana_timeout : ℕ := 60
  max_image_size_mb : ℕ := 10
  max_image_dimension : ℕ := 2048
  work_image_size : ℕ := 1536
  quality_threshold : ℝ := 0.7
  max_retries : ℕ := 2

/-- Settings instance with every field at its `config.py` default. -/
def defaultSettings : Settings := {}

/-- Model of `check_neckline_alignment`: if either the garment
`neckline` anchor or the person `neck` keypoint is missing the check
vacuously passes with score 1; otherwise the garment neckline is
translated by `(tx, ty)` and compared with the person neck, scoring
`max(0, 1 - dist/max_distance)` and passing iff `dist < max_distance`. -/
noncomputable def check_neckline_alignment
    (garment_anchors person_keypoints : KPMap Point)
    (transform_params : TransformParams) (max_distance : ℝ := 50) : Bool × ℝ :=
  match kpGet garment_anchors "neckline", kpGet person_keypoints "neck" with
  | some garment_neck, some person_neck =>
      let transformed_neck : Point :=
        (garment_neck.1 + transform_params.tx, garment_neck.2 + transform_params.ty)
      let dist := distance transformed_neck person_neck
      let score := max 0 (1 - dist / max_distance)
      (decide (dist < max_distance), score)
  | _, _ => (true, 1)

/-- Model of `check_shoulder_angle`: scores the absolute rotation angle
against `max_angle_diff` (15 degrees by default).  The
`person_keypoints` argument is unused by the body, as in the source. -/
noncomputable def check_shoulder_angle
    (person_keypoints : KPMap Point) (transform_params : TransformParams)
    (max_angle_diff : ℝ := 15) : Bool × ℝ :=
  let angle_diff := |transform_params.angle|
  let score := max 0 (1 - angle_diff / max_angle_diff)
  (decide (angle_diff < max_angle_diff), score)

/-- Model of `check_garment_within_person`: an empty garment mask fails
with score 0; otherwise the score is the fraction of garment pixels
inside the person mask and the check passes iff the overflow fraction
is below `max_overflow`. -/
noncomputable def check_garment_within_person
    (garment_mask person_mask : Mask) (max_overflow : ℝ := 0.15) : Bool × ℝ :=
  let garment_pixels := countNonZero garment_mask
  if garment_pixels = 0 then
    (false, 0)
  else
    let overlap := maskAnd garment_mask person_mask
    let overlap_pixels := countNonZero overlap
    let overlap_ratio : ℝ := (overlap_pixels : ℝ) / (garment_pixels : ℝ)
    let overflow_ratio := 1 - overlap_ratio
    (decide (overflow_ratio < max_overflow), overlap_ratio)

/-- Model of `check_scale_reasonable`: passes iff
`min_scale ≤ scale ≤ max_scale`; the score is 1 at scale 1 decaying
linearly to 0 at the bounds, clamped into `[0, 1]`. -/
noncomputable def check_scale_reasonable
    (transform_params : TransformParams)
    (min_scale : ℝ := 0.5) (max_scale : ℝ := 2) : Bool × ℝ :=
  let scale := transform_params.scale
  let passed := decide (min_scale ≤ scale ∧ scale ≤ max_scale)
  let score := if scale < 1 then
                 (if min_scale < 1 then (scale - min_scale) / (1 - min_scale) else scale)
               else
                 (if 1 < max_scale then (max_scale - scale) / (max_scale - 1) else 1 / scale)
  (passed, max 0 (min 1 score))

/-- Individual score dict produced by `calculate_quality_score`. -/
structure QScores where
  neckline_alignment : ℝ
  shoulder_angle : ℝ
  overlap : ℝ
  scale : ℝ

/-- Model of `calculate_quality_score`: runs the four checks, forms the
weighted overall score with weights 0.3 / 0.2 / 0.3 / 0.2, and passes
iff the overall score reaches `settings.quality_threshold` AND all four
individual checks pass. -/
noncomputable def calculate_quality_score (s : Settings)
    (garment_anchors person_keypoints : KPMap Point)
    (garment_mask person_mask : Mask)
    (transform_params : TransformParams) : ℝ × QScores × Bool :=
  let n := check_neckline_alignment garment_anchors person_keypoints transform_params
  let a := check_shoulder_angle person_keypoints transform_params
  let o := check_garment_within_person garment_mask person_mask
  let sc := check_scale_reasonable transform_params
  let overall_score := n.2 * 0.3 + a.2 * 0.2 + o.2 * 0.3 + sc.2 * 0.2
  let all_passed := n.1 && a.1 && o.1 && sc.1
  let quality_passed := decide (overall_score ≥ s.quality_threshold) && all_passed
  (overall_score, ⟨n.2, a.2, o.2, sc.2⟩, quality_passed)

/-- Model of the `quality_control` wrapper: returns the overall score
and the pass/fail decision. -/
noncomputable def quality_control_run (s : Settings)
    (garment_anchors person_keypoints : KPMap Point)
    (garment_mask person_mask : Mask)
    (transform_params : TransformParams) : ℝ × Bool :=
  let r := calculate_quality_score s garment_anchors person_keypoints
             garment_mask person_mask transform_params
  (r.1, r.2.2)

/-! ## Compositing (services/alignment.py, composite_garment_on_person)

Pixel-level model of the compositing rule.  Images are per-pixel
channel functions `y → x → value` with values in `0..255`; the blend
arithmetic (numpy float) is modelled exactly over `ℚ` and the final
`astype(np.uint8)` as truncation modulo 256. -/

/-- Per-pixel channel view of a uint8 image plane. -/
abbrev PixelGrid : Type := ℕ → ℕ → ℕ

/-- Model of `cv2.bitwise_not` on a uint8 value: the 8-bit complement
`255 - a` (inputs are uint8, hence at most 255). -/
def bitwiseNot8 (a : ℕ) : ℕ := 255 - a

/-- Model of `composite_garment_on_person` at one pixel of one colour
channel.  The composite mask is
`garment_mask AND torso_mask AND NOT arms_mask`; it is normalized to a
fractional alpha, further multiplied by the garment's own alpha channel
when the garment image carried one (`garment_alpha = some _`, the RGBA
branch of the source), and the output is the linear blend
`garment*alpha + person*(1-alpha)` cast back to uint8. -/
def composite_garment_on_person
    (person garment_bgr garment_mask torso_mask arms_mask : PixelGrid)
    (garment_alpha : Option PixelGrid) : PixelGrid :=
  fun y x =>
    let composite_mask :=
      Nat.land (Nat.land (garment_mask y x) (torso_mask y x)) (bitwiseNot8 (arms_mask y x))
    let alpha : ℚ := (composite_mask : ℚ) / 255
    let alpha : ℚ :=
      match garment_alpha with
      | some ga => alpha * ((ga y x : ℚ) / 255)
      | none => alpha
    (Int.toNat ⌊(garment_bgr y x : ℚ) * alpha + (person y x : ℚ) * (1 - alpha)⌋) % 256

/-! ## Exception taxonomy

One constructor per exception class raised by the stage modules, each
carrying its `error_code` attribute and message; `otherError` stands
for any exception outside the repository's taxonomy. -/

/-- Exceptions observable at the orchestrator boundary. -/
inductive PyExc where
  | imageLoadError (code : ErrorCode) (msg : String)
  | segmentationError (code : ErrorCode) (msg : String)
  | poseDetectionError (code : ErrorCode) (msg : String)
  | garmentPrepError (code : ErrorCode) (msg : String)
  | alignmentError (code : ErrorCode) (msg : String)
  | qualityCheckError (code : ErrorCode) (msg : String)
  | storageError (code : ErrorCode) (msg : String)
  | nanoAPIError (code : ErrorCode) (msg : String)
  | otherError (msg : String)
deriving DecidableEq, Repr

/-- Decidable equality of stage outcomes, for evaluating the embedding
on concrete inputs. -/
instance {ε α : Type} [DecidableEq ε] [DecidableEq α] : DecidableEq (Except ε α) := by
  intro a b
  cases a with
  | error e1 =>
      cases b with
      | error e2 => exact decidable_of_iff (e1 = e2) (by simp)
      | ok a2 => exact isFalse (fun hcontra => by cases hcontra)
  | ok a1 =>
      cases b with
      | error e2 => exact isFalse (fun hcontra => by cases hcontra)
      | ok a2 => exact decidable_of_iff (a1 = a2) (by simp)

/-- Whether an exception is the gateway's `NanoAPIError`. -/
def PyExc.isNano : PyExc → Bool
  | .nanoAPIError _ _ => true
  | _ => false

/-! ## Pose detector (services/pose_detector.py)

MediaPipe is an external collaborator: its output for the run is an
oracle argument (`none` = no pose landmarks found, otherwise a
landmark, with normalized coordinates and a visibility, for each of the
nine names the code reads).  Likewise `get_bounding_box` wraps OpenCV
contour extraction, so the fallback path receives that call's result as
an oracle argument. -/

/-- One MediaPipe landmark: normalized coordinates plus visibility. -/
structure Landmark where
  x : ℚ
  y : ℚ
  visibility : ℚ

/-- MediaPipe result: a landmark for each requested name. -/
abbrev MPLandmarks : Type := String → Landmark

/-- The nine landmark names `detect_keypoints` extracts, in the
iteration order of the source's `landmark_map` dict. -/
def landmark_names : List String :=
  ["nose", "left_shoulder", "right_shoulder", "left_elbow", "right_elbow",
   "left_wrist", "right_wrist", "left_hip", "right_hip"]

/-- Python `int()` on a rational: truncation toward zero. -/
def truncInt (q : ℚ) : ℤ :=
  if 0 ≤ q then q.floor else q.ceil

/-- Clamp a coordinate into `[0, bound-1]`, the source's
`max(0, min(bound - 1, v))`. -/
def clampCoord (bound : ℕ) (v : ℤ) : ℤ :=
  max 0 (min ((bound : ℤ) - 1) v)

/-- Loop body of `detect_keypoints`: skip the landmark when its
visibility is below the threshold, otherwise record its clamped pixel
coordinates under its name. -/
def extract_landmark (w h : ℕ) (confidence_threshold : ℚ) (landmarks : MPLandmarks)
    (acc : KPMap IPoint) (name : String) : KPMap IPoint :=
  let lm := landmarks name
  if lm.visibility < confidence_threshold then acc
  else
    acc ++ [(name, (clampCoord w (truncInt (lm.x * w)), clampCoord h (truncInt (lm.y * h))))]

/-- Neck synthesis step of `detect_keypoints`: when both shoulders are
present, add `neck` as their floor midpoint. -/
def add_neck (kps : KPMap IPoint) : KPMap IPoint :=
  match kpGet kps "left_shoulder", kpGet kps "right_shoulder" with
  | some ls, some rs =>
      kps ++ [("neck", (Int.fdiv (ls.1 + rs.1) 2, Int.fdiv (ls.2 + rs.2) 2))]
  | _, _ => kps

/-- Model of `detect_keypoints`: extracts the nine named landmarks that
clear the visibility threshold, converts them to clamped pixel
coordinates, synthesizes `neck` as the floor-midpoint of the two
shoulders when both are present, and fails with a pose error unless
both shoulders were detected. -/
def detect_keypoints (w h : ℕ) (confidence_threshold : ℚ)
    (mp_result : Option MPLandmarks) : Except PyExc (KPMap IPoint) :=
  match mp_result with
  | none => .error (.poseDetectionError ErrorCode.POSE_FAILED "No pose detected in image")
  | some landmarks =>
      let keypoints : KPMap IPoint :=
        add_neck (landmark_names.foldl (extract_landmark w h confidence_threshold landmarks) [])
      if (kpGet keypoints "left_shoulder").isSome && (kpGet keypoints "right_shoulder").isSome
      then .ok keypoints
      else .error (.poseDetectionError ErrorCode.POSE_FAILED "Missing critical keypoints (shoulders)")

/-- Model of `get_fallback_keypoints`: body-proportion keypoints from
the person-mask bounding box (`bbox = none` models an empty mask, where
`get_bounding_box` returned `None` and the code raises). -/
def get_fallback_keypoints (bbox : Option (ℤ × ℤ × ℤ × ℤ)) : Except PyExc (KPMap IPoint) :=
  match bbox with
  | none => .error (.poseDetectionError ErrorCode.POSE_FAILED
      "Cannot generate fallback keypoints - empty mask")
  | some (x, y, w, h) =>
      .ok [("neck", (x + Int.fdiv w 2, y + truncInt ((h : ℚ) * (15 / 100)))),
           ("left_shoulder", (x + truncInt ((w : ℚ) * (3 / 10)), y + truncInt ((h : ℚ) * (18 / 100)))),
           ("right_shoulder", (x + truncInt ((w : ℚ) * (7 / 10)), y + truncInt ((h : ℚ) * (18 / 100)))),
           ("left_hip", (x + truncInt ((w : ℚ) * (35 / 100)), y + truncInt ((h : ℚ) * (55 / 100)))),
           ("right_hip", (x + truncInt ((w : ℚ) * (65 / 100)), y + truncInt ((h : ℚ) * (55 / 100))))]

/-- Model of `detect_pose`: tries MediaPipe detection with confidence
threshold 0.5 (written `mkRat 1 2`); on a pose error, falls back to
bounding-box keypoints when a person mask was supplied
(`person_mask = some bbox_result`), else re-raises. -/
def detect_pose (w h : ℕ) (mp_result : Option MPLandmarks)
    (person_mask : Option (Option (ℤ × ℤ × ℤ × ℤ))) : Except PyExc (KPMap IPoint) :=
  match detect_keypoints w h (mkRat 1 2) mp_result with
  | .ok keypoints => .ok keypoints
  | .error e =>
      match person_mask with
      | some bbox => get_fallback_keypoints bbox
      | none => .error e

/-- View of an integer pixel point as a real point, for feeding
detector output into the alignment arithmetic. -/
def ipointToR (p : IPoint) : Point := ((p.1 : ℝ), (p.2 : ℝ))

/-- View of an integer-coordinate keypoint map as a real-coordinate
one. -/
def kpMapToR (m : KPMap IPoint) : KPMap Point :=
  m.map (fun kv => (kv.1, ipointToR kv.2))

/-! ## Generation gateway (services/nano_api.py)

The HTTP transaction is external; `ApiOutcome` is the oracle describing
what the transport and response did, and `call_nano_banana_api` embeds
the code's handling of it.  Note that the `NanoAPIError`s raised inside
the `try` body for a bad payload are themselves caught by the
function's trailing `except Exception` clause and re-wrapped with the
"Unexpected error during API call" message. -/

/-- Orchestrator-level handle for a decoded image. -/
abbrev Image : Type := ℕ

/-- A successful HTTP response from the generation service. -/
structure ApiResponse where
  image_field : Option String
  decoded : Option Image

/-- Outcome of the HTTP transaction inside `call_nano_banana_api`. -/
inductive ApiOutcome where
  | timeout
  | httpError (msg : String)
  | unexpected (msg : String)
  | success (resp : ApiResponse)

/-- Model of `call_nano_banana_api`: maps every failure mode of the
transaction to a `NanoAPIError` (timeout to the TIMEOUT code, all
others to NANO_API_ERROR) and succeeds only when the response carries a
decodable `image` payload. -/
def call_nano_banana_api (outcome : ApiOutcome) : Except PyExc Image :=
  match outcome with
  | .timeout => .error (.nanoAPIError ErrorCode.TIMEOUT "API request timed out")
  | .httpError m => .error (.nanoAPIError ErrorCode.NANO_API_ERROR ("API request failed: " ++ m))
  | .unexpected m =>
      .error (.nanoAPIError ErrorCode.NANO_API_ERROR ("Unexpected error during API call: " ++ m))
  | .success resp =>
      match resp.image_field with
      | none => .error (.nanoAPIError ErrorCode.NANO_API_ERROR
          "Unexpected error during API call: Invalid API response")
      | some _ =>
          match resp.decoded with
          | none => .error (.nanoAPIError ErrorCode.NANO_API_ERROR
              "Unexpected error during API call: Failed to decode result image")
          | some img => .ok img

/-- Model of `generate_final_result`: deterministic prompt assembly
followed by the API call; only the call can fail, so the outcome is the
call's outcome. -/
def generate_final_result (outcome : ApiOutcome) : Except PyExc Image :=
  call_nano_banana_api outcome

/-! ## Pipeline orchestrator (workers/processor.py)

One run of `process_job` over a job.  Each stage call is an external
collaborator from the orchestrator's point of view; `PipelineEnv`
records what each stage did on this run (its value or the exception it
raised), and `process_job` embeds the orchestrator's own control flow:
marking PROCESSING, the stage sequence, the quality-retry early return,
the draft/final branch with gateway fallback, persistence and the
typed exception handlers. -/

/-- The three masks returned by `segmentation.segment_person`. -/
structure SegMasks where
  person : Mask
  torso : Mask
  arms : Mask

/-- Outcomes of each stage for one `process_job` run. -/
structure PipelineEnv where
  loadPerson : Except PyExc Image
  loadGarment : Except PyExc Image
  detectPose : Except PyExc (KPMap IPoint)
  segment : Except PyExc SegMasks
  detectPoseRetry : Except PyExc (KPMap IPoint)
  prepareGarment : Except PyExc (Image × Mask × KPMap IPoint)
  alignComposite : Except PyExc (Image × Mask × TransformParams)
  qualityCtl : Except PyExc (ℝ × Bool)
  gateway : Except PyExc Image
  saveResult : Except PyExc String
  saveArtifacts : List (String × String)

/-- Error code recorded by the `except` handlers at the bottom of
`process_job`: the typed stage exceptions are caught by their own
handlers and keep their `error_code`; a `NanoAPIError` escaping the
inner gateway handler, or any untyped exception, reaches the trailing
`except Exception` handler and becomes UNKNOWN_ERROR. -/
def outerCode : PyExc → ErrorCode
  | .imageLoadError c _ => c
  | .segmentationError c _ => c
  | .poseDetectionError c _ => c
  | .garmentPrepError c _ => c
  | .alignmentError c _ => c
  | .qualityCheckError c _ => c
  | .storageError c _ => c
  | .nanoAPIError _ _ => ErrorCode.UNKNOWN_ERROR
  | .otherError _ => ErrorCode.UNKNOWN_ERROR

/-- Error message recorded by the `except` handlers of `process_job`. -/
def outerMsg : PyExc → String
  | .imageLoadError _ m => m
  | .segmentationError _ m => m
  | .poseDetectionError _ m => m
  | .garmentPrepError _ m => m
  | .alignmentError _ m => m
  | .qualityCheckError _ m => m
  | .storageError _ m => m
  | .nanoAPIError _ m => "Unexpected error: " ++ m
  | .otherError m => "Unexpected error: " ++ m

/-- Result of the body of `process_job` when no exception escapes:
either the quality-retry early return or normal completion. -/
inductive BodyResult where
  | retry (job : Job)
  | done (job : Job) (final : Image) (score : ℝ)

/-- Stage sequence of `process_job`, from just after `mark_processing`
to just before the `except` handlers.  `job` is the job as mutated so
far (already marked PROCESSING); `t` stands for the current time.
Exception propagation out of a stage call is `Except.bind`
short-circuiting; `alignComposite`'s triple is
(draft composite, transformed mask, transform params) and
`qualityCtl`'s pair is (quality score, quality passed). -/
def process_body (env : PipelineEnv) (t : ℕ) (job : Job) : Except PyExc BodyResult :=
  env.loadPerson.bind fun _person_image =>
  env.loadGarment.bind fun _garment_image =>
  env.detectPose.bind fun person_keypoints0 =>
  env.segment.bind fun _masks =>
  (if person_keypoints0.length < 2 then env.detectPoseRetry
   else .ok person_keypoints0).bind fun _person_keypoints =>
  env.prepareGarment.bind fun _garment =>
  env.alignComposite.bind fun aligned =>
  env.qualityCtl.bind fun quality =>
  if !quality.2 && job.can_retry then
    .ok (.retry { job.increment_retry t with status := JobStatus.QUEUED })
  else
    (if job.mode = "draft" then Except.ok aligned.1
     else
       match env.gateway with
       | .ok refined => .ok refined
       | .error e =>
           match e with
           | .nanoAPIError _ _ => .ok aligned.1
           | _ => .error e).bind fun final_result =>
    env.saveResult.bind fun result_url =>
    .ok (.done (Job.mark_done t result_url quality.1
                  { job with debug_artifacts := env.saveArtifacts })
         final_result quality.1)

/-- Observable outcome of one `process_job` run: the job record as last
persisted, whether the id was put back on the queue, the boolean the
function returned, and the final image when the run completed. -/
structure ProcOutcome where
  job : Job
  requeued : Bool
  ret : Bool
  finalResult : Option Image

/-- Model of `process_job`: marks the job PROCESSING (stamping
`started_at`), runs the stage body, and converts every escaped
exception into a terminal FAILED record via the `except` handlers. -/
def process_job (env : PipelineEnv) (t : ℕ) (job0 : Job) : ProcOutcome :=
  let job := job0.mark_processing t
  match process_body env t job with
  | .ok (.retry job') => { job := job', requeued := true, ret := false, finalResult := none }
  | .ok (.done job' final _score) =>
      { job := job', requeued := false, ret := true, finalResult := some final }
  | .error e =>
      { job := job.mark_failed t (outerCode e) (outerMsg e),
        requeued := false, ret := false, finalResult := none }

/-- Environment in which every stage succeeded with the given payloads;
the quality verdict, gateway outcome and save outcome stay free. -/
def mkOkEnv (p g : Image) (kp kpr : KPMap IPoint) (sm : SegMasks)
    (prep : Image × Mask × KPMap IPoint) (al : Image × Mask × TransformParams)
    (q : ℝ) (passed : Bool) (gw : Except PyExc Image) (url : String)
    (arts : List (String × String)) : PipelineEnv :=
  { loadPerson := .ok p, loadGarment := .ok g, detectPose := .ok kp,
    segment := .ok sm, detectPoseRetry := .ok kpr, prepareGarment := .ok prep,
    alignComposite := .ok al, qualityCtl := .ok (q, passed), gateway := gw,
    saveResult := .ok url, saveArtifacts := arts }

/-! ## Concrete instances used for witnesses and counterexamples -/

/-- Keypoint map with the two shoulders only. -/
def kpEx : KPMap IPoint :=
  [("left_shoulder", ((0 : ℤ), (0 : ℤ))), ("right_shoulder", ((2 : ℤ), (0 : ℤ)))]

/-- Empty segmentation masks placeholder. -/
def smEx : SegMasks := ⟨[], [], []⟩

/-- Identity-like transform parameters placeholder. -/
noncomputable def tpEx : TransformParams := ⟨1, 0, 0, 0, ((0 : ℝ), (0 : ℝ))⟩

/-- Fresh draft-mode job with the default retry settings. -/
def jobDraft : Job := { job_id := "job-1", mode := "draft" }

/-- Fresh final-mode job with the default retry settings. -/
def jobFinal : Job := { job_id := "job-2" }

/-- Environment where every stage succeeds but the quality verdict is a
failure with score 0. -/
noncomputable def envQFail : PipelineEnv :=
  mkOkEnv 0 0 kpEx kpEx smEx (0, [], kpEx) (0, [], tpEx) 0 false (Except.ok 0) "res" []

/-- Environment where loading the person image raises a timeout. -/
noncomputable def envLoadFail : PipelineEnv :=
  { envQFail with
    loadPerson := Except.error (PyExc.imageLoadError ErrorCode.TIMEOUT
      "Image download timed out") }

/-- Garment anchors for the alignment witness: shoulders at distance 5. -/
noncomputable def gaEx : KPMap Point :=
  [("left_shoulder", ((0 : ℝ), (0 : ℝ))), ("right_shoulder", ((3 : ℝ), (4 : ℝ)))]

/-- Person keypoints for the alignment witness: shoulders at distance 10. -/
noncomputable def pkEx : KPMap Point :=
  [("left_shoulder", ((0 : ℝ), (0 : ℝ))), ("right_shoulder", ((6 : ℝ), (8 : ℝ))),
   ("neck", ((1 : ℝ), (1 : ℝ)))]

/-- MediaPipe oracle for the pose witness: every landmark at the image
origin with full visibility. -/
def mpEx : MPLandmarks := fun _ => ⟨0, 0, 1⟩

/-! ## Helper lemmas about the orchestrator -/

/-- Inversion for a successful `Except.bind`: the first action produced
a value and the continuation succeeded on it. -/
theorem except_bind_ok {ε α β : Type} (x : Except ε α) (f : α → Except ε β) (b : β)
    (h : x.bind f = .ok b) : ∃ a, x = .ok a ∧ f a = .ok b := by
  cases x with
  | error e => simp [Except.bind] at h
  | ok a => exact ⟨a, rfl, h⟩

/-- Marking a job PROCESSING does not change its retry bookkeeping. -/
theorem can_retry_mark_processing (t : ℕ) (j : Job) :
    (j.mark_processing t).can_retry = j.can_retry := rfl

/-- Characterization of `process_job` as the case split on the result
of its stage body. -/
theorem process_job_eq (env : PipelineEnv) (t : ℕ) (job0 : Job) :
    process_job env t job0 =
      match process_body env t (job0.mark_processing t) with
      | .ok (.retry j') => { job := j', requeued := true, ret := false, finalResult := none }
      | .ok (.done j' final _s) =>
          { job := j', requeued := false, ret := true, finalResult := some final }
      | .error e =>
          { job := (job0.mark_processing t).mark_failed t (outerCode e) (outerMsg e),
            requeued := false, ret := false, finalResult := none } := rfl

/-- Inversion of the quality-retry early return: it happens only when
the quality verdict was a failure and the job could still retry, and it
yields exactly the requeue-ready job. -/
theorem process_body_retry_inv (env : PipelineEnv) (t : ℕ) (j j' : Job)
    (h : process_body env t j = .ok (.retry j')) :
    j' = { j.increment_retry t with status := JobStatus.QUEUED } ∧
    j.can_retry = true ∧ ∃ q : ℝ, env.qualityCtl = .ok (q, false) := by
  unfold process_body at h
  obtain ⟨_, _, h⟩ := except_bind_ok _ _ _ h
  obtain ⟨_, _, h⟩ := except_bind_ok _ _ _ h
  obtain ⟨_, _, h⟩ := except_bind_ok _ _ _ h
  obtain ⟨_, _, h⟩ := except_bind_ok _ _ _ h
  obtain ⟨_, _, h⟩ := except_bind_ok _ _ _ h
  obtain ⟨_, _, h⟩ := except_bind_ok _ _ _ h
  obtain ⟨_, _, h⟩ := except_bind_ok _ _ _ h
  obtain ⟨quality, hq, h⟩ := except_bind_ok _ _ _ h
  cases hcond : (!quality.2 && j.can_retry) with
  | false =>
      simp only [hcond, if_false, Bool.false_eq_true] at h
      obtain ⟨_, _, h⟩ := except_bind_ok _ _ _ h
      obtain ⟨_, _, h⟩ := except_bind_ok _ _ _ h
      simp at h
  | true =>
      simp only [hcond, if_true] at h
      have hj : j' = { j.increment_retry t with status := JobStatus.QUEUED } := by
        injection h with h
        injection h with h
        exact h.symm
      have hb := Bool.and_eq_true _ _ |>.mp hcond
      have hqp : quality.2 = false := by
        have hx := hb.1
        revert hx
        cases quality.2 <;> simp
      refine ⟨hj, hb.2, quality.1, ?_⟩
      rw [hq, show quality = (quality.1, quality.2) from rfl, hqp]

/-- Inversion of normal completion: the quality verdict and the saved
result url determine the DONE job record. -/
theorem process_body_done_inv (env : PipelineEnv) (t : ℕ) (j j' : Job)
    (f : Image) (s : ℝ)
    (h : process_body env t j = .ok (.done j' f s)) :
    ∃ (q : ℝ × Bool) (url : String),
      env.qualityCtl = .ok q ∧ env.saveResult = .ok url ∧ s = q.1 ∧
      j' = Job.mark_done t url q.1 { j with debug_artifacts := env.saveArtifacts } := by
  unfold process_body at h
  obtain ⟨_, _, h⟩ := except_bind_ok _ _ _ h
  obtain ⟨_, _, h⟩ := except_bind_ok _ _ _ h
  obtain ⟨_, _, h⟩ := except_bind_ok _ _ _ h
  obtain ⟨_, _, h⟩ := except_bind_ok _ _ _ h
  obtain ⟨_, _, h⟩ := except_bind_ok _ _ _ h
  obtain ⟨_, _, h⟩ := except_bind_ok _ _ _ h
  obtain ⟨_, _, h⟩ := except_bind_ok _ _ _ h
  obtain ⟨quality, hq, h⟩ := except_bind_ok _ _ _ h
  cases hcond : (!quality.2 && j.can_retry) with
  | false =>
      simp only [hcond, if_false, Bool.false_eq_true] at h
      obtain ⟨final, hf, h⟩ := except_bind_ok _ _ _ h
      obtain ⟨url, hu, h⟩ := except_bind_ok _ _ _ h
      refine ⟨quality, url, hq, hu, ?_, ?_⟩
      · injection h with h
        injection h with h1 h2 h3
        exact h3.symm
      · injection h with h
        injection h with h1 h2 h3
        exact h1.symm
  | true =>
      simp only [hcond, if_true] at h
      simp at h

/-- A run in which every stage succeeds, the quality verdict is a
failure and the job can still retry: the outcome is the requeue. -/
theorem process_job_retry_run
    (p g : Image) (kp kpr : KPMap IPoint) (sm : SegMasks)
    (prep : Image × Mask × KPMap IPoint) (draft : Image) (tmask : Mask)
    (tparams : TransformParams) (q : ℝ) (gw : Except PyExc Image) (url : String)
    (arts : List (String × String)) (t : ℕ) (job : Job)
    (hcr : job.can_retry = true) :
    process_job (mkOkEnv p g kp kpr sm prep (draft, tmask, tparams) q false gw url arts) t job =
      { job := { (job.mark_processing t).increment_retry t with status := JobStatus.QUEUED },
        requeued := true, ret := false, finalResult := none } := by
  have hcr2 : (job.mark_processing t).can_retry = true := by
    rw [can_retry_mark_processing, hcr]
  unfold process_job process_body mkOkEnv
  by_cases hkp : kp.length < 2 <;>
    simp [Except.bind, hkp, hcr2]

/-- A run in draft mode in which every stage succeeds and the
quality-retry guard does not fire: the job completes with the draft
composite as the final result. -/
theorem process_job_done_run_draft
    (p g : Image) (kp kpr : KPMap IPoint) (sm : SegMasks)
    (prep : Image × Mask × KPMap IPoint) (draft : Image) (tmask : Mask)
    (tparams : TransformParams) (q : ℝ) (passed : Bool) (gw : Except PyExc Image)
    (url : String) (arts : List (String × String)) (t : ℕ) (job : Job)
    (hmode : job.mode = "draft")
    (hng : (!passed && job.can_retry) = false) :
    process_job (mkOkEnv p g kp kpr sm prep (draft, tmask, tparams) q passed gw url arts) t job =
      { job := Job.mark_done t url q { job.mark_processing t with debug_artifacts := arts },
        requeued := false, ret := true, finalResult := some draft } := by
  have hng2 : (!passed && (job.mark_processing t).can_retry) = false := by
    rw [can_retry_mark_processing]
    exact hng
  have hmode2 : (job.mark_processing t).mode = "draft" := hmode
  unfold process_job process_body mkOkEnv
  by_cases hkp : kp.length < 2 <;>
    simp [Except.bind, hkp, hng2, hmode2]

/-- A run in final mode in which every stage succeeds, the
quality-retry guard does not fire and the gateway raises a
`NanoAPIError`: the failure is absorbed and the draft composite becomes
the final result. -/
theorem process_job_final_fallback
    (p g : Image) (kp kpr : KPMap IPoint) (sm : SegMasks)
    (prep : Image × Mask × KPMap IPoint) (draft : Image) (tmask : Mask)
    (tparams : TransformParams) (q : ℝ) (passed : Bool) (e : PyExc)
    (url : String) (arts : List (String × String)) (t : ℕ) (job : Job)
    (hmode : job.mode = "final")
    (hnano : e.isNano = true)
    (hng : (!passed && job.can_retry) = false) :
    process_job (mkOkEnv p g kp kpr sm prep (draft, tmask, tparams) q passed
                   (.error e) url arts) t job =
      { job := Job.mark_done t url q { job.mark_processing t with debug_artifacts := arts },
        requeued := false, ret := true, finalResult := some draft } := by
  have hng2 : (!passed && (job.mark_processing t).can_retry) = false := by
    rw [can_retry_mark_processing]
    exact hng
  have hmode2 : (job.mark_processing t).mode = "final" := hmode
  cases e with
  | nanoAPIError c m =>
      unfold process_job process_body mkOkEnv
      by_cases hkp : kp.length < 2 <;>
        simp [Except.bind, hkp, hng2, hmode2]
  | imageLoadError c m => simp [PyExc.isNano] at hnano
  | segmentationError c m => simp [PyExc.isNano] at hnano
  | poseDetectionError c m => simp [PyExc.isNano] at hnano
  | garmentPrepError c m => simp [PyExc.isNano] at hnano
  | alignmentError c m => simp [PyExc.isNano] at hnano
  | qualityCheckError c m => simp [PyExc.isNano] at hnano
  | storageError c m => simp [PyExc.isNano] at hnano
  | otherError m => simp [PyExc.isNano] at hnano

/-! ## Claim theorems -/

/-- C3: the quality scorer's overall decision passes if and only if all
four individual checks (neckline alignment, shoulder angle, containment,
scale) pass and the weighted overall score (weights 0.3/0.2/0.3/0.2,
baked into `calculate_quality_score`) is at least the configured
threshold, whose `config.py` default is 0.7; in particular any single
failing check forces overall failure regardless of the weighted score. -/
theorem quality_pass_iff (s : Settings) (ga pk : KPMap Point) (gm pm : Mask)
    (tp : TransformParams) :
    (((calculate_quality_score s ga pk gm pm tp).2.2 = true) ↔
      ((check_neckline_alignment ga pk tp).1 = true ∧
       (check_shoulder_angle pk tp).1 = true ∧
       (check_garment_within_person gm pm).1 = true ∧
       (check_scale_reasonable tp).1 = true ∧
       s.quality_threshold ≤ (calculate_quality_score s ga pk gm pm tp).1)) ∧
    defaultSettings.quality_threshold = 0.7 := by
  refine ⟨?_, rfl⟩
  unfold calculate_quality_score
  simp only [Bool.and_eq_true, decide_eq_true_eq, ge_iff_le]
  tauto

/-- C9: the containment check is total on an empty warped garment mask:
with zero non-zero garment pixels, `check_garment_within_person`
returns `(passed = false, score = 0)` without dividing by zero, so an
empty warped garment can never pass the containment check. -/
theorem containment_empty_mask (gm pm : Mask) (h : countNonZero gm = 0) :
    check_garment_within_person gm pm = (false, 0) := by
  unfold check_garment_within_person
  rw [h]
  simp

/-- Witness for C9 at a concrete all-zero garment mask. -/
theorem containment_empty_mask_witness :
    countNonZero [[0, 0], [0, 0]] = 0 ∧
    check_garment_within_person [[0, 0], [0, 0]] [[255, 255], [255, 255]] = (false, 0) :=
  ⟨by decide, containment_empty_mask [[0, 0], [0, 0]] [[255, 255], [255, 255]] (by decide)⟩

/-- C5: with both shoulders present in the anchor map and in the
keypoint map, `calculate_transform_params` succeeds and never divides
by zero: a zero garment shoulder distance yields scale exactly 1, and
non-zero shoulder distances yield
scale = person distance / garment distance, which is strictly
positive. -/
theorem transform_scale_safe (ga pk : KPMap Point) (gls grs pls prs : Point)
    (h1 : kpGet ga "left_shoulder" = some gls)
    (h2 : kpGet ga "right_shoulder" = some grs)
    (h3 : kpGet pk "left_shoulder" = some pls)
    (h4 : kpGet pk "right_shoulder" = some prs) :
    ∃ tp : TransformParams, calculate_transform_params ga pk = some tp ∧
      (distance gls grs = 0 → tp.scale = 1) ∧
      (distance gls grs ≠ 0 → tp.scale = distance pls prs / distance gls grs) ∧
      (distance gls grs ≠ 0 → distance pls prs ≠ 0 → 0 < tp.scale) := by
  have hnng : 0 ≤ distance gls grs := Real.sqrt_nonneg _
  have hnnp : 0 ≤ distance pls prs := Real.sqrt_nonneg _
  unfold calculate_transform_params
  rw [h1, h2, h3, h4]
  refine ⟨_, rfl, ?_, ?_, ?_⟩
  · intro hz
    simp only [hz, gt_iff_lt, lt_self_iff_false, if_false]
  · intro hz
    have hpos : 0 < distance gls grs := lt_of_le_of_ne hnng (Ne.symm hz)
    simp only [gt_iff_lt, hpos, if_true]
  · intro hz hzp
    have hpos : 0 < distance gls grs := lt_of_le_of_ne hnng (Ne.symm hz)
    have hposp : 0 < distance pls prs := lt_of_le_of_ne hnnp (Ne.symm hzp)
    simp only [gt_iff_lt, hpos, if_true]
    exact div_pos hposp hpos

/-- Witness for C5 at concrete shoulder points (garment shoulders 5
apart, person shoulders 10 apart). -/
theorem transform_scale_safe_witness :
    kpGet gaEx "left_shoulder" = some ((0 : ℝ), (0 : ℝ)) ∧
    (∃ tp : TransformParams, calculate_transform_params gaEx pkEx = some tp ∧
      (distance ((0 : ℝ), (0 : ℝ)) ((3 : ℝ), (4 : ℝ)) = 0 → tp.scale = 1) ∧
      (distance ((0 : ℝ), (0 : ℝ)) ((3 : ℝ), (4 : ℝ)) ≠ 0 →
        tp.scale = distance ((0 : ℝ), (0 : ℝ)) ((6 : ℝ), (8 : ℝ)) /
          distance ((0 : ℝ), (0 : ℝ)) ((3 : ℝ), (4 : ℝ))) ∧
      (distance ((0 : ℝ), (0 : ℝ)) ((3 : ℝ), (4 : ℝ)) ≠ 0 →
        distance ((0 : ℝ), (0 : ℝ)) ((6 : ℝ), (8 : ℝ)) ≠ 0 → 0 < tp.scale)) :=
  ⟨rfl, transform_scale_safe gaEx pkEx _ _ _ _ rfl rfl rfl rfl⟩

/-- Bitwise and of any value with an all-zero mask value is zero. -/
theorem land_zero_right (n : ℕ) : Nat.land n 0 = 0 := by
  have h : n &&& 0 = 0 := by
    apply Nat.eq_of_testBit_eq
    intro i
    simp [Nat.testBit_land]
  exact h

/-- C7: in `composite_garment_on_person` the visible garment region is
`warped mask AND torso mask AND NOT arms mask` (built into the
definition), so at every pixel where the arms mask is fully set (255)
the composite alpha is zero and the output pixel equals the person
image pixel — the garment never renders over detected arm pixels,
whether or not the garment carried its own alpha channel. -/
theorem composite_arms_occlusion
    (person garment_bgr garment_mask torso_mask arms_mask : PixelGrid)
    (garment_alpha : Option PixelGrid) (y x : ℕ)
    (harms : arms_mask y x = 255) (hp : person y x ≤ 255) :
    composite_garment_on_person person garment_bgr garment_mask torso_mask
      arms_mask garment_alpha y x = person y x := by
  rcases garment_alpha with _ | ga <;>
    simp [composite_garment_on_person, bitwiseNot8, harms, land_zero_right,
      Int.floor_natCast, Nat.mod_eq_of_lt (Nat.lt_succ_of_le hp)]

/-- Witness for C7 at a concrete pixel: arms mask fully set, person
pixel value 7 survives compositing with a bright garment. -/
theorem composite_arms_occlusion_witness :
    (255 : ℕ) = 255 ∧ (7 : ℕ) ≤ 255 ∧
    composite_garment_on_person (fun _ _ => 7) (fun _ _ => 200) (fun _ _ => 255)
      (fun _ _ => 255) (fun _ _ => 255) none 0 0 = 7 :=
  ⟨rfl, by decide,
    composite_arms_occlusion (fun _ _ => 7) (fun _ _ => 200) (fun _ _ => 255)
      (fun _ _ => 255) (fun _ _ => 255) none 0 0 rfl (by decide)⟩

/-- Dict assignment then lookup of the same key yields the new value. -/
theorem lookup_assocSet_self {α : Type} (k : String) (v : α) (l : List (String × α)) :
    List.lookup k (assocSet k v l) = some v := by
  induction l with
  | nil => simp [assocSet, List.lookup]
  | cons hd tl ih =>
      rcases hd with ⟨k2, v2⟩
      by_cases hk : k2 = k
      · subst hk
        simp [assocSet, List.lookup]
      · have hbeq : (k == k2) = false := beq_eq_false_iff_ne.mpr (Ne.symm hk)
        simp [assocSet, hk, List.lookup, hbeq, ih]

/-- Dict assignment leaves every other key's binding unchanged. -/
theorem lookup_assocSet_ne {α : Type} (k k2 : String) (v : α) (l : List (String × α))
    (hk : k2 ≠ k) : List.lookup k2 (assocSet k v l) = List.lookup k2 l := by
  have hbeq : (k2 == k) = false := beq_eq_false_iff_ne.mpr hk
  induction l with
  | nil => simp [assocSet, List.lookup, hbeq]
  | cons hd tl ih =>
      rcases hd with ⟨k3, v3⟩
      by_cases hk3 : k3 = k
      · subst hk3
        simp [assocSet, List.lookup, hbeq]
      · simp [assocSet, hk3, List.lookup, ih]

/-- C8 counterexample: on an empty store, `update_job` with a job whose
id is not present does not fail — it inserts the record (the Python
body is a plain dict assignment) — whereas the specified update (which
fails on a missing id) returns no store. -/
theorem update_job_absent_id_counterexample :
    update_job_spec 3 jobFinal {} = none ∧
    JQState.get_job "job-2" (JQState.update_job 3 jobFinal {}) =
      some { jobFinal with updated_at := 3 } := by
  constructor
  · rfl
  · rfl

/-- C8 amended: `update_job` never fails; it stores the given job under
`job.job_id` unconditionally — replacing the record when the id exists
and inserting it when it does not — refreshing `updated_at`, leaving
every other id's record and the queue untouched. -/
theorem update_job_upserts (t : ℕ) (j : Job) (s : JQState) :
    JQState.get_job j.job_id (JQState.update_job t j s) = some { j with updated_at := t } ∧
    (JQState.update_job t j s).queue = s.queue ∧
    ∀ k : String, k ≠ j.job_id →
      JQState.get_job k (JQState.update_job t j s) = JQState.get_job k s := by
  refine ⟨lookup_assocSet_self _ _ _, rfl, ?_⟩
  intro k hk
  exact lookup_assocSet_ne _ _ _ _ hk

/-- Witness for the amended C8 at a concrete store and job. -/
theorem update_job_upserts_witness :
    JQState.get_job "job-2" (JQState.update_job 3 jobFinal {}) =
      some { jobFinal with updated_at := 3 } ∧
    ("other" ≠ "job-2" ∧
      JQState.get_job "other" (JQState.update_job 3 jobFinal {}) =
        JQState.get_job "other" {}) :=
  ⟨(update_job_upserts 3 jobFinal {}).1,
   by decide,
   (update_job_upserts 3 jobFinal {}).2.2 "other" (by decide)⟩

/-- C4 counterexample: a job requeued by a quality failure and
processed a second time does not keep the `started_at` of its first
PROCESSING transition: `mark_processing` stamps `started_at`
unconditionally, so the second run overwrites it. -/
theorem started_at_overwritten_counterexample :
    (process_job envQFail 1 jobDraft).job.status = JobStatus.QUEUED ∧
    (process_job envQFail 1 jobDraft).job.started_at = some 1 ∧
    (process_job envQFail 2 (process_job envQFail 1 jobDraft).job).job.started_at = some 2 ∧
    ¬((process_job envQFail 2 (process_job envQFail 1 jobDraft).job).job.started_at =
        (process_job envQFail 1 jobDraft).job.started_at) := by
  have h1 := process_job_retry_run 0 0 kpEx kpEx smEx (0, [], kpEx) 0 [] tpEx 0
    (Except.ok 0) "res" [] 1 jobDraft rfl
  have h2 := process_job_retry_run 0 0 kpEx kpEx smEx (0, [], kpEx) 0 [] tpEx 0
    (Except.ok 0) "res" [] 2
    { (jobDraft.mark_processing 1).increment_retry 1 with status := JobStatus.QUEUED } rfl
  simp only [envQFail]
  rw [h1]
  dsimp only
  rw [h2]
  simp [Job.increment_retry, Job.mark_processing]

/-- C4 amended: `started_at` is stamped with the current time on every
invocation of `process_job` (every QUEUED→PROCESSING transition), not
only when it was still unset; a requeued job processed again carries
the `started_at` of its most recent PROCESSING transition. -/
theorem started_at_stamped_every_run (env : PipelineEnv) (t : ℕ) (job : Job) :
    (process_job env t job).job.started_at = some t := by
  rw [process_job_eq]
  cases hb : process_body env t (job.mark_processing t) with
  | error e => simp [Job.mark_failed, Job.mark_processing]
  | ok r =>
      cases r with
      | retry j2 =>
          obtain ⟨hj, -, -⟩ := process_body_retry_inv _ _ _ _ hb
          simp [hj, Job.increment_retry, Job.mark_processing]
      | done j2 f sc =>
          obtain ⟨q, url, -, -, -, hj⟩ := process_body_done_inv _ _ _ _ _ _ hb
          simp [hj, Job.mark_done, Job.mark_processing]

/-- C2: every invocation of `process_job` leaves the job in a
non-PROCESSING state: an escaped stage exception yields an immediate
terminal FAILED record carrying that exception's mapped error kind
(`outerCode`, which is the typed exception's own code and
UNKNOWN_ERROR for anything else) with `completed_at` stamped and
`retry_count` unchanged; and the only non-terminal exit is the
quality-retry path, which leaves the job QUEUED and requeued. -/
theorem orchestrator_never_leaves_processing (env : PipelineEnv) (t : ℕ) (job : Job) :
    ((process_job env t job).job.status ≠ JobStatus.PROCESSING) ∧
    (∀ e : PyExc, process_body env t (job.mark_processing t) = .error e →
        (process_job env t job).job =
          (job.mark_processing t).mark_failed t (outerCode e) (outerMsg e) ∧
        (process_job env t job).job.status = JobStatus.FAILED ∧
        (process_job env t job).job.completed_at = some t ∧
        (process_job env t job).job.retry_count = job.retry_count ∧
        (∀ m : String, e = .otherError m → outerCode e = ErrorCode.UNKNOWN_ERROR)) ∧
    ((process_job env t job).job.status = JobStatus.QUEUED →
        (process_job env t job).requeued = true ∧ job.can_retry = true ∧
        ∃ q : ℝ, env.qualityCtl = .ok (q, false)) := by
  rw [process_job_eq]
  cases hb : process_body env t (job.mark_processing t) with
  | error e =>
      refine ⟨?_, ?_, ?_⟩
      · simp [Job.mark_failed]
      · intro e2 he2
        injection he2 with he2
        subst he2
        refine ⟨rfl, ?_, ?_, ?_, ?_⟩
        · simp [Job.mark_failed]
        · simp [Job.mark_failed]
        · simp [Job.mark_failed, Job.mark_processing]
        · intro m hm
          subst hm
          rfl
      · intro hq
        simp [Job.mark_failed] at hq
  | ok r =>
      cases r with
      | retry j2 =>
          obtain ⟨hj, hcr, q, hq⟩ := process_body_retry_inv _ _ _ _ hb
          refine ⟨?_, ?_, ?_⟩
          · simp [hj]
          · intro e2 he2
            simp at he2
          · intro _
            rw [can_retry_mark_processing] at hcr
            exact ⟨rfl, hcr, q, hq⟩
      | done j2 f sc =>
          obtain ⟨q, url, hq, hurl, hs, hj⟩ := process_body_done_inv _ _ _ _ _ _ hb
          refine ⟨?_, ?_, ?_⟩
          · simp [hj, Job.mark_done]
          · intro e2 he2
            simp at he2
          · intro hqd
            rw [hj] at hqd
            simp [Job.mark_done] at hqd

/-- Witness for C2: a load failure ends FAILED with `completed_at`
stamped and the retry count untouched, and a quality-retry run ends
requeued. -/
theorem orchestrator_never_leaves_processing_witness :
    ((process_job envLoadFail 5 jobDraft).job.status = JobStatus.FAILED ∧
     (process_job envLoadFail 5 jobDraft).job.retry_count = jobDraft.retry_count ∧
     (process_job envLoadFail 5 jobDraft).job.completed_at = some 5) ∧
    ((process_job envQFail 7 jobDraft).requeued = true ∧ jobDraft.can_retry = true) := by
  constructor
  · have h := (orchestrator_never_leaves_processing envLoadFail 5 jobDraft).2.1
      (PyExc.imageLoadError ErrorCode.TIMEOUT "Image download timed out") rfl
    exact ⟨h.2.1, h.2.2.2.1, h.2.2.1⟩
  · have hq : (process_job envQFail 7 jobDraft).job.status = JobStatus.QUEUED := by
      have h1 := process_job_retry_run 0 0 kpEx kpEx smEx (0, [], kpEx) 0 [] tpEx 0
        (Except.ok 0) "res" [] 7 jobDraft rfl
      simp only [envQFail]
      rw [h1]
    have h := (orchestrator_never_leaves_processing envQFail 7 jobDraft).2.2 hq
    exact ⟨h.1, h.2.1⟩

/-- C1: a job with `max_retries = 2` whose quality check fails on every
attempt takes the quality-retry path exactly twice — each of the first
two attempts increments `retry_count`, sets the status back to QUEUED,
requeues, and returns without failing — and on the third attempt
`can_retry` is false, so the run completes DONE with the failing
attempt's score and `retry_count = 2`. -/
theorem quality_retry_exactly_twice
    (p g : Image) (kp kpr : KPMap IPoint) (sm : SegMasks)
    (prep : Image × Mask × KPMap IPoint) (draft : Image) (tmask : Mask)
    (tparams : TransformParams) (q1 q2 q3 : ℝ) (gw : Except PyExc Image)
    (url : String) (arts : List (String × String)) (t1 t2 t3 : ℕ) (job : Job)
    (hmax : job.max_retries = 2) (hcount : job.retry_count = 0)
    (hmode : job.mode = "draft") :
    ((process_job (mkOkEnv p g kp kpr sm prep (draft, tmask, tparams) q1 false gw url arts)
        t1 job).job.retry_count = 1 ∧
     (process_job (mkOkEnv p g kp kpr sm prep (draft, tmask, tparams) q1 false gw url arts)
        t1 job).job.status = JobStatus.QUEUED ∧
     (process_job (mkOkEnv p g kp kpr sm prep (draft, tmask, tparams) q1 false gw url arts)
        t1 job).requeued = true ∧
     (process_job (mkOkEnv p g kp kpr sm prep (draft, tmask, tparams) q1 false gw url arts)
        t1 job).ret = false) ∧
    ((process_job (mkOkEnv p g kp kpr sm prep (draft, tmask, tparams) q2 false gw url arts) t2
        (process_job (mkOkEnv p g kp kpr sm prep (draft, tmask, tparams) q1 false gw url arts)
          t1 job).job).job.retry_count = 2 ∧
     (process_job (mkOkEnv p g kp kpr sm prep (draft, tmask, tparams) q2 false gw url arts) t2
        (process_job (mkOkEnv p g kp kpr sm prep (draft, tmask, tparams) q1 false gw url arts)
          t1 job).job).job.status = JobStatus.QUEUED ∧
     (process_job (mkOkEnv p g kp kpr sm prep (draft, tmask, tparams) q2 false gw url arts) t2
        (process_job (mkOkEnv p g kp kpr sm prep (draft, tmask, tparams) q1 false gw url arts)
          t1 job).job).requeued = true ∧
     (process_job (mkOkEnv p g kp kpr sm prep (draft, tmask, tparams) q2 false gw url arts) t2
        (process_job (mkOkEnv p g kp kpr sm prep (draft, tmask, tparams) q1 false gw url arts)
          t1 job).job).ret = false) ∧
    ((process_job (mkOkEnv p g kp kpr sm prep (draft, tmask, tparams) q3 false gw url arts) t3
        (process_job (mkOkEnv p g kp kpr sm prep (draft, tmask, tparams) q2 false gw url arts) t2
          (process_job (mkOkEnv p g kp kpr sm prep (draft, tmask, tparams) q1 false gw url arts)
            t1 job).job).job).job.status = JobStatus.DONE ∧
     (process_job (mkOkEnv p g kp kpr sm prep (draft, tmask, tparams) q3 false gw url arts) t3
        (process_job (mkOkEnv p g kp kpr sm prep (draft, tmask, tparams) q2 false gw url arts) t2
          (process_job (mkOkEnv p g kp kpr sm prep (draft, tmask, tparams) q1 false gw url arts)
            t1 job).job).job).job.retry_count = 2 ∧
     (process_job (mkOkEnv p g kp kpr sm prep (draft, tmask, tparams) q3 false gw url arts) t3
        (process_job (mkOkEnv p g kp kpr sm prep (draft, tmask, tparams) q2 false gw url arts) t2
          (process_job (mkOkEnv p g kp kpr sm prep (draft, tmask, tparams) q1 false gw url arts)
            t1 job).job).job).job.quality_score = some q3 ∧
     (process_job (mkOkEnv p g kp kpr sm prep (draft, tmask, tparams) q3 false gw url arts) t3
        (process_job (mkOkEnv p g kp kpr sm prep (draft, tmask, tparams) q2 false gw url arts) t2
          (process_job (mkOkEnv p g kp kpr sm prep (draft, tmask, tparams) q1 false gw url arts)
            t1 job).job).job).requeued = false ∧
     (process_job (mkOkEnv p g kp kpr sm prep (draft, tmask, tparams) q3 false gw url arts) t3
        (process_job (mkOkEnv p g kp kpr sm prep (draft, tmask, tparams) q2 false gw url arts) t2
          (process_job (mkOkEnv p g kp kpr sm prep (draft, tmask, tparams) q1 false gw url arts)
            t1 job).job).job).ret = true) := by
  have h1 := process_job_retry_run p g kp kpr sm prep draft tmask tparams q1 gw url arts t1 job
    (by simp [Job.can_retry, hmax, hcount])
  rw [h1]
  dsimp only
  have h2 := process_job_retry_run p g kp kpr sm prep draft tmask tparams q2 gw url arts t2
    { (job.mark_processing t1).increment_retry t1 with status := JobStatus.QUEUED }
    (by simp [Job.can_retry, Job.increment_retry, Job.mark_processing, hmax, hcount])
  rw [h2]
  dsimp only
  have h3 := process_job_done_run_draft p g kp kpr sm prep draft tmask tparams q3 false gw url
    arts t3
    { ({ (job.mark_processing t1).increment_retry t1 with
          status := JobStatus.QUEUED }.mark_processing t2).increment_retry t2 with
      status := JobStatus.QUEUED }
    hmode
    (by simp [Job.can_retry, Job.increment_retry, Job.mark_processing, hmax, hcount])
  rw [h3]
  simp [Job.mark_done, Job.increment_retry, Job.mark_processing, hcount]

/-- Witness for C1 at a fresh draft-mode job and concrete stage
payloads. -/
theorem quality_retry_exactly_twice_witness :
    jobDraft.max_retries = 2 ∧ jobDraft.retry_count = 0 ∧ jobDraft.mode = "draft" ∧
    (process_job (mkOkEnv 0 0 kpEx kpEx smEx (0, [], kpEx) (0, [], tpEx) 0 false
        (Except.ok 0) "res" []) 1 jobDraft).job.retry_count = 1 ∧
    (process_job (mkOkEnv 0 0 kpEx kpEx smEx (0, [], kpEx) (0, [], tpEx) 0 false
        (Except.ok 0) "res" []) 3
      (process_job (mkOkEnv 0 0 kpEx kpEx smEx (0, [], kpEx) (0, [], tpEx) 0 false
          (Except.ok 0) "res" []) 2
        (process_job (mkOkEnv 0 0 kpEx kpEx smEx (0, [], kpEx) (0, [], tpEx) 0 false
            (Except.ok 0) "res" []) 1 jobDraft).job).job).job.status = JobStatus.DONE := by
  have h := quality_retry_exactly_twice 0 0 kpEx kpEx smEx (0, [], kpEx) 0 [] tpEx 0 0 0
    (Except.ok 0) "res" [] 1 2 3 jobDraft rfl rfl rfl
  exact ⟨rfl, rfl, rfl, h.1.1, h.2.2.1⟩

/-- Every failure of `call_nano_banana_api` — transport timeout,
non-success HTTP response, missing or undecodable payload, or any other
exception inside the call — is raised as a `NanoAPIError`. -/
theorem call_nano_failures_are_nano (o : ApiOutcome) (e : PyExc)
    (h : call_nano_banana_api o = .error e) : e.isNano = true := by
  cases o with
  | timeout =>
      simp [call_nano_banana_api] at h
      subst h
      rfl
  | httpError m =>
      simp [call_nano_banana_api] at h
      subst h
      rfl
  | unexpected m =>
      simp [call_nano_banana_api] at h
      subst h
      rfl
  | success resp =>
      rcases hi : resp.image_field with _ | s
      · simp [call_nano_banana_api, hi] at h
        subst h
        rfl
      · rcases hd : resp.decoded with _ | img
        · simp [call_nano_banana_api, hi, hd] at h
          subst h
          rfl
        · simp [call_nano_banana_api, hi, hd] at h

/-- C6: on a "final"-mode job, any failure of the generation gateway is
absorbed by the orchestrator: the final result equals the draft
composite from the alignment stage, the job reaches DONE with the
draft's quality score, and the gateway failure never makes the job
FAILED. -/
theorem gateway_failure_absorbed
    (p g : Image) (kp kpr : KPMap IPoint) (sm : SegMasks)
    (prep : Image × Mask × KPMap IPoint) (draft : Image) (tmask : Mask)
    (tparams : TransformParams) (q : ℝ) (passed : Bool) (outcome : ApiOutcome)
    (url : String) (arts : List (String × String)) (t : ℕ) (job : Job)
    (hmode : job.mode = "final")
    (hng : (!passed && job.can_retry) = false)
    (hfail : ∀ img : Image, call_nano_banana_api outcome ≠ Except.ok img) :
    (process_job (mkOkEnv p g kp kpr sm prep (draft, tmask, tparams) q passed
        (call_nano_banana_api outcome) url arts) t job).job.status = JobStatus.DONE ∧
    (process_job (mkOkEnv p g kp kpr sm prep (draft, tmask, tparams) q passed
        (call_nano_banana_api outcome) url arts) t job).finalResult = some draft ∧
    (process_job (mkOkEnv p g kp kpr sm prep (draft, tmask, tparams) q passed
        (call_nano_banana_api outcome) url arts) t job).job.quality_score = some q ∧
    (process_job (mkOkEnv p g kp kpr sm prep (draft, tmask, tparams) q passed
        (call_nano_banana_api outcome) url arts) t job).job.status ≠ JobStatus.FAILED := by
  obtain ⟨e, he⟩ : ∃ e, call_nano_banana_api outcome = .error e := by
    cases hc : call_nano_banana_api outcome with
    | ok img => exact absurd hc (hfail img)
    | error e => exact ⟨e, rfl⟩
  have hnano := call_nano_failures_are_nano outcome e he
  rw [he]
  rw [process_job_final_fallback p g kp kpr sm prep draft tmask tparams q passed e url arts
    t job hmode hnano hng]
  simp [Job.mark_done]

/-- Witness for C6: the gateway times out on a final-mode job whose
quality check passed. -/
theorem gateway_failure_absorbed_witness :
    jobFinal.mode = "final" ∧
    (process_job (mkOkEnv 0 0 kpEx kpEx smEx (0, [], kpEx) (0, [], tpEx) 0 true
        (call_nano_banana_api ApiOutcome.timeout) "res" []) 4 jobFinal).job.status =
      JobStatus.DONE ∧
    (process_job (mkOkEnv 0 0 kpEx kpEx smEx (0, [], kpEx) (0, [], tpEx) 0 true
        (call_nano_banana_api ApiOutcome.timeout) "res" []) 4 jobFinal).finalResult = some 0 := by
  have h := gateway_failure_absorbed 0 0 kpEx kpEx smEx (0, [], kpEx) 0 [] tpEx 0 true
    ApiOutcome.timeout "res" [] 4 jobFinal rfl rfl
    (by intro img himg; simp [call_nano_banana_api] at himg)
  exact ⟨rfl, h.1, h.2.1⟩

/-- Lookup distributes over appending keypoint maps: the left map wins
when it binds the key. -/
theorem kpGet_append {α : Type} (a b : KPMap α) (k : String) :
    kpGet (a ++ b) k =
      match kpGet a k with
      | some v => some v
      | none => kpGet b k := by
  induction a with
  | nil => simp [kpGet]
  | cons hd tl ih =>
      rcases hd with ⟨k2, v2⟩
      cases hbeq : (k == k2) with
      | true => simp [kpGet, List.lookup, hbeq]
      | false => simpa [kpGet, List.lookup, hbeq] using ih

/-- A name absent from the iterated landmark list keeps its binding
through the extraction loop. -/
theorem kpGet_foldl_extract (w h : ℕ) (c : ℚ) (lms : MPLandmarks) (k : String)
    (ns : List String) :
    ∀ acc : KPMap IPoint, ¬ k ∈ ns →
      kpGet (ns.foldl (extract_landmark w h c lms) acc) k = kpGet acc k := by
  induction ns with
  | nil =>
      intro acc _
      rfl
  | cons n tl ih =>
      intro acc hk
      have hkn : k ≠ n := by
        intro he
        exact hk (by rw [he]; exact List.mem_cons_self n tl)
      have hk2 : ¬ k ∈ tl := fun ht => hk (List.mem_cons_of_mem n ht)
      rw [List.foldl_cons, ih _ hk2]
      simp only [extract_landmark]
      by_cases hv : (lms n).visibility < c
      · rw [if_pos hv]
      · rw [if_neg hv, kpGet_append]
        cases hacc : kpGet acc k with
        | some v => simp
        | none =>
            have hbeq : (k == n) = false := beq_eq_false_iff_ne.mpr hkn
            simp [kpGet, List.lookup, hbeq]

/-- Lookup commutes with the integer-to-real view of a keypoint map. -/
theorem kpGet_kpMapToR (m : KPMap IPoint) (k : String) :
    kpGet (kpMapToR m) k = (kpGet m k).map ipointToR := by
  induction m with
  | nil => rfl
  | cons hd tl ih =>
      rcases hd with ⟨k2, v2⟩
      cases hbeq : (k == k2) with
      | true => simp [kpMapToR, kpGet, List.lookup, hbeq]
      | false => simpa [kpMapToR, kpGet, List.lookup, hbeq] using ih

/-- A successful MediaPipe extraction contains both shoulders (it
raises otherwise) and the synthesized neck midpoint. -/
theorem detect_keypoints_required (w h : ℕ) (c : ℚ) (mp : Option MPLandmarks)
    (kps : KPMap IPoint) (hok : detect_keypoints w h c mp = .ok kps) :
    (∃ pt, kpGet kps "left_shoulder" = some pt) ∧
    (∃ pt, kpGet kps "right_shoulder" = some pt) ∧
    (∃ pt, kpGet kps "neck" = some pt) := by
  cases mp with
  | none => simp [detect_keypoints] at hok
  | some lms =>
      simp only [detect_keypoints] at hok
      set base := landmark_names.foldl (extract_landmark w h c lms) [] with hbase
      have hneckbase : kpGet base "neck" = none := by
        rw [hbase]
        exact kpGet_foldl_extract w h c lms "neck" landmark_names [] (by decide)
      split at hok
      case isFalse => simp at hok
      case isTrue hcond =>
        injection hok with hok
        subst hok
        have hboth := Bool.and_eq_true _ _ |>.mp hcond
        refine ⟨Option.isSome_iff_exists.mp hboth.1, Option.isSome_iff_exists.mp hboth.2, ?_⟩
        rcases hls : kpGet base "left_shoulder" with _ | ls
        · have hadd : add_neck base = base := by
            simp [add_neck, hls]
          rw [hadd] at hboth
          rw [hls] at hboth
          simp at hboth
        · rcases hrs : kpGet base "right_shoulder" with _ | rs
          · have hadd : add_neck base = base := by
              simp [add_neck, hls, hrs]
            rw [hadd] at hboth
            rw [hrs] at hboth
            simp at hboth
          · have hadd : add_neck base =
                base ++ [("neck", (Int.fdiv (ls.1 + rs.1) 2, Int.fdiv (ls.2 + rs.2) 2))] := by
              simp [add_neck, hls, hrs]
            rw [hadd, kpGet_append, hneckbase]
            exact ⟨_, rfl⟩

/-- C10: every keypoint map returned by `detect_pose` — from the
MediaPipe path or from the mask-bounding-box fallback — contains
`left_shoulder`, `right_shoulder` and `neck`; consequently the neck
lookup that `calculate_transform_params` performs on such a map can
never fall back to `left_shoulder` (the lookup is never `none`). -/
theorem detect_pose_required_keypoints (w h : ℕ) (mp : Option MPLandmarks)
    (person_mask : Option (Option (ℤ × ℤ × ℤ × ℤ))) (kps : KPMap IPoint)
    (hok : detect_pose w h mp person_mask = .ok kps) :
    (∃ pt, kpGet kps "left_shoulder" = some pt) ∧
    (∃ pt, kpGet kps "right_shoulder" = some pt) ∧
    (∃ pt, kpGet kps "neck" = some pt) ∧
    kpGet (kpMapToR kps) "neck" ≠ none := by
  have hmain : (∃ pt, kpGet kps "left_shoulder" = some pt) ∧
      (∃ pt, kpGet kps "right_shoulder" = some pt) ∧
      (∃ pt, kpGet kps "neck" = some pt) := by
    rw [detect_pose] at hok
    cases hd : detect_keypoints w h (mkRat 1 2) mp with
    | ok k =>
        rw [hd] at hok
        injection hok with hok
        subst hok
        exact detect_keypoints_required w h (mkRat 1 2) mp k hd
    | error e =>
        rw [hd] at hok
        cases person_mask with
        | none => simp at hok
        | some bbox =>
            cases bbox with
            | none => simp [get_fallback_keypoints] at hok
            | some quad =>
                obtain ⟨x, y, w2, h2⟩ := quad
                simp only [get_fallback_keypoints] at hok
                injection hok with hok
                subst hok
                exact ⟨⟨_, rfl⟩, ⟨_, rfl⟩, ⟨_, rfl⟩⟩
  obtain ⟨pt, hpt⟩ := hmain.2.2
  refine ⟨hmain.1, hmain.2.1, hmain.2.2, ?_⟩
  rw [kpGet_kpMapToR, hpt]
  simp

/-- Witness for C10: a full-visibility MediaPipe result on a 100×100
image, all landmarks at the origin. -/
theorem detect_pose_required_keypoints_witness :
    detect_pose 100 100 (some mpEx) none =
      Except.ok [("nose", ((0 : ℤ), (0 : ℤ))), ("left_shoulder", (0, 0)),
        ("right_shoulder", (0, 0)), ("left_elbow", (0, 0)), ("right_elbow", (0, 0)),
        ("left_wrist", (0, 0)), ("right_wrist", (0, 0)), ("left_hip", (0, 0)),
        ("right_hip", (0, 0)), ("neck", (0, 0))] ∧
    ((∃ pt, kpGet [("nose", ((0 : ℤ), (0 : ℤ))), ("left_shoulder", (0, 0)),
        ("right_shoulder", (0, 0)), ("left_elbow", (0, 0)), ("right_elbow", (0, 0)),
        ("left_wrist", (0, 0)), ("right_wrist", (0, 0)), ("left_hip", (0, 0)),
        ("right_hip", (0, 0)), ("neck", (0, 0))] "neck" = some pt)) := by
  have hvis : ¬ ((1 : ℚ) < mkRat 1 2) := by decide
  have htrunc : truncInt 0 = 0 := by decide
  have hclamp : clampCoord 100 0 = 0 := by decide
  have hfd : Int.fdiv 0 2 = 0 := by decide
  have hok : detect_pose 100 100 (some mpEx) none =
      Except.ok [("nose", ((0 : ℤ), (0 : ℤ))), ("left_shoulder", (0, 0)),
        ("right_shoulder", (0, 0)), ("left_elbow", (0, 0)), ("right_elbow", (0, 0)),
        ("left_wrist", (0, 0)), ("right_wrist", (0, 0)), ("left_hip", (0, 0)),
        ("right_hip", (0, 0)), ("neck", (0, 0))] := by
    simp [detect_pose, detect_keypoints, landmark_names, extract_landmark, add_neck,
      mpEx, hvis, htrunc, hclamp, hfd, kpGet, List.lookup]
  exact ⟨hok, (detect_pose_required_keypoints 100 100 (some mpEx) none _ hok).2.2.1⟩

end VTO
